import Mathlib

/-!
Verification of the Assistant Manager backend (Python/FastAPI/peewee) against
its natural-language specification.  The relevant Python functions are given a
shallow embedding: database tables become lists of records, datetimes become
integers (seconds), raised exceptions become `Except` errors, and peewee
queries become list operations.  Each claim of the specification is then
settled by a theorem about these definitions.
-/

set_option maxRecDepth 10000

namespace AssistantManager

/-- Character-list substring test: `needle` occurs contiguously in `hay`. -/
def listContains (needle : List Char) : List Char → Bool
  | [] => needle.isEmpty
  | c :: rest => needle.isPrefixOf (c :: rest) || listContains needle rest

/-- Python substring test `needle in hay`, as used by the keyword matchers. -/
def strContains (hay needle : String) : Bool :=
  listContains needle.toList hay.toList

/-- Python `any(word in hay for word in words)`. -/
def anyKeyword (hay : String) (words : List String) : Bool :=
  words.any (fun w => strContains hay w)

/-- Python `str.lower()` (the messages involved are ASCII, where
character-wise `Char.toLower` agrees with Python). -/
def pyLower (s : String) : String :=
  ⟨s.data.map Char.toLower⟩

/-! ## Agent messages (langchain `HumanMessage` / `AIMessage`)

`_analyze_request` reads only the content of the latest message; the state
persistence code (`AgentState.to_dict` / `from_dict`) also records whether each
message is human or AI. -/

inductive MsgType where
  | human
  | ai
deriving DecidableEq, Repr

structure Msg where
  type : MsgType
  content : String
deriving DecidableEq, Repr

/-! ## C1: `AssistantAgent._analyze_request` (assistant_agent.py 223-257)

The agent lower-cases the latest message and walks a fixed if/elif chain of
keyword families, storing the first matching family action in
`state.context["action"]`; with no messages it stores `status_check`. -/

/-- Embedding of the keyword if/elif chain of `_analyze_request`, applied to
the already lower-cased latest message. -/
def classifyMessage (m : String) : String :=
  if anyKeyword m ["email", "send", "update", "request"] then "send_emails"
  else if anyKeyword m ["response", "reply", "check", "monitor"] then "check_responses"
  else if anyKeyword m ["task", "create", "add"] then "create_task"
  else if anyKeyword m ["status", "summary", "report"] then "generate_report"
  else if anyKeyword m ["kanban", "board"] then "board_status"
  else if anyKeyword m ["github", "publish", "sync", "pages"] then "publish_to_github"
  else "general_query"

/-- Embedding of `_analyze_request`: the action stored in
`state.context["action"]` for a given message list. -/
def analyzeAction (messages : List Msg) : String :=
  match messages.getLast? with
  | none => "status_check"
  | some m => classifyMessage (pyLower m.content)

/-- Spec-side definition (from the words of the specification): the keyword
families in the order the spec lists them, tried first to last, defaulting to
`general_query`. -/
def specKeywordFamilies : List (List String × String) :=
  [ (["email", "send", "update", "request"], "send_emails")
  , (["response", "reply", "check", "monitor"], "check_responses")
  , (["task", "create", "add"], "create_task")
  , (["status", "summary", "report"], "generate_report")
  , (["kanban", "board"], "board_status")
  , (["github", "publish", "sync", "pages"], "publish_to_github") ]

/-- Spec-side classifier: first-matching keyword family in the fixed order,
otherwise `general_query`. -/
def specClassify (m : String) : String :=
  match specKeywordFamilies.find? (fun fam => anyKeyword m fam.1) with
  | some fam => fam.2
  | none => "general_query"

/-! ## Kanban data model (models/database.py)

Tables become lists of records; peewee `get_or_none` becomes `List.find?`
(first matching row); autoincrement primary keys are tracked by `nextTaskId`
and `nextChangeId`.  Datetimes are integers (seconds). -/

structure TeamMember where
  id : Nat
  email : String
  name : String
  role : String
  active : Bool
deriving DecidableEq, Repr

structure Task where
  id : Nat
  title : String
  description : String
  status : String
  assignee_id : Nat
  due_date : Option String
  priority : String
  order : Nat
  tags : List String
deriving DecidableEq, Repr

/-- A `KanbanChange` row.  `task_data` is the `json.dumps` payload, modeled as
its key/value pairs (no claim inspects the serialized text). -/
structure KanbanChange where
  id : Nat
  change_type : String
  task_id : Nat
  task_data : List (String × String)
  approved : Bool
  approved_at : Option Int
deriving DecidableEq, Repr

structure KanbanDB where
  members : List TeamMember
  tasks : List Task
  changes : List KanbanChange
  nextTaskId : Nat
  nextChangeId : Nat
deriving DecidableEq, Repr

def validStatuses : List String :=
  ["todo", "in_progress", "review", "done", "blocked"]

def validPriorities : List String :=
  ["low", "medium", "high", "urgent"]

/-! ## C2: `CreateTaskTool._run` (kanban_tools.py 92-152) -/

/-- Embedding of `CreateTaskTool._run`.  The due-date parse
(`datetime.fromisoformat` with fallback to `None` on error) is modeled as
storing the raw optional string, which no claim inspects.  Returns the updated
database and the returned message string. -/
def createTaskToolRun (db : KanbanDB) (title assignee_email status description priority : String)
    (due_date : Option String) : KanbanDB × String :=
  match db.members.find? (fun mem => mem.email == assignee_email) with
  | none => (db, "Error: Team member not found with email: " ++ assignee_email)
  | some assignee =>
    let status := if validStatuses.contains status then status else "todo"
    let priority := if validPriorities.contains priority then priority else "medium"
    let max_order := (db.tasks.filter (fun t => t.status == status)).length
    let task : Task :=
      { id := db.nextTaskId, title := title, description := description,
        status := status, assignee_id := assignee.id, due_date := due_date,
        priority := priority, order := max_order, tags := [] }
    let change : KanbanChange :=
      { id := db.nextChangeId, change_type := "create", task_id := task.id,
        task_data := [("title", title), ("assignee", assignee_email),
                      ("status", status), ("priority", priority)],
        approved := false, approved_at := none }
    ({ db with tasks := db.tasks ++ [task], changes := db.changes ++ [change],
               nextTaskId := db.nextTaskId + 1, nextChangeId := db.nextChangeId + 1 },
     "Created task \x27" ++ title ++ "\x27 assigned to " ++ assignee.name ++ " (" ++
       assignee_email ++ ") with status \x27" ++ status ++ "\x27")

/-! ## HTTP layer (api/kanban.py)

A raised exception inside a route body is an `Except` error; `PyExc`
distinguishes `HTTPException` from every other exception class, mirroring the
two `except` shapes that appear in the file. -/

structure HTTPError where
  status : Nat
  detail : String
deriving DecidableEq, Repr

inductive PyExc where
  | http (e : HTTPError)
  | other (msg : String)
deriving DecidableEq, Repr

/-- Python `str(e)` for a caught `HTTPException` (starlette renders it as
`"<status>: <detail>"`); only the replaced status code matters to the claims. -/
def pyStrOfHTTPError (e : HTTPError) : String :=
  toString e.status ++ ": " ++ e.detail

/-- The `except Exception as e: raise HTTPException(status_code=500,
detail=str(e))` handler that closes `create_task` and `delete_task`: it
catches every exception — including an `HTTPException` raised in the body —
and re-raises it as a 500. -/
def wrap500 {α : Type} : Except PyExc α → Except HTTPError α
  | .ok a => .ok a
  | .error (.http e) => .error ⟨500, pyStrOfHTTPError e⟩
  | .error (.other msg) => .error ⟨500, msg⟩

/-- Request body schema `TaskCreate` (models/schemas.py). -/
structure TaskCreate where
  title : String
  description : String
  status : String
  assignee_id : Nat
  due_date : Option String
  priority : String
  order : Option Nat
  tags : List String
deriving DecidableEq, Repr

/-- The `try` body of `POST /api/kanban/tasks` (api/kanban.py 74-138): verify
the assignee, create the task row and the pending `create` change record.
Returns the new task id along with the updated database. -/
def createTaskEndpointBody (db : KanbanDB) (req : TaskCreate) :
    Except PyExc (KanbanDB × Nat) :=
  match db.members.find? (fun mem => mem.id == req.assignee_id) with
  | none => .error (.http ⟨404, "Assignee not found"⟩)
  | some assignee =>
    let max_order := (db.tasks.filter (fun t => t.status == req.status)).length
    let task : Task :=
      { id := db.nextTaskId, title := req.title, description := req.description,
        status := req.status, assignee_id := assignee.id, due_date := req.due_date,
        priority := req.priority, order := req.order.getD max_order, tags := req.tags }
    let change : KanbanChange :=
      { id := db.nextChangeId, change_type := "create", task_id := task.id,
        task_data := [("title", req.title), ("assignee", assignee.email),
                      ("status", req.status), ("priority", req.priority)],
        approved := false, approved_at := none }
    .ok ({ db with tasks := db.tasks ++ [task], changes := db.changes ++ [change],
                   nextTaskId := db.nextTaskId + 1, nextChangeId := db.nextChangeId + 1 },
         task.id)

/-- `POST /api/kanban/tasks` as the client sees it: the body wrapped in the
catch-all 500 handler (this route has no `except HTTPException: raise` clause,
unlike `update_task`). -/
def createTaskEndpoint (db : KanbanDB) (req : TaskCreate) :
    Except HTTPError (KanbanDB × Nat) :=
  wrap500 (createTaskEndpointBody db req)

/-! ## C10: `DELETE /api/kanban/tasks/{task_id}` (api/kanban.py 249-278) -/

/-- The `try` body of `delete_task`: look the task up, record a pending
`delete` change (reading `task.assignee.email` through the foreign key, which
raises `DoesNotExist` if the member row is gone) and return the queued
message.  The task row itself is never removed. -/
def deleteTaskEndpointBody (db : KanbanDB) (task_id : Nat) :
    Except PyExc (KanbanDB × String) :=
  match db.tasks.find? (fun t => t.id == task_id) with
  | none => .error (.http ⟨404, "Task not found"⟩)
  | some task =>
    match db.members.find? (fun mem => mem.id == task.assignee_id) with
    | none => .error (.other "TeamMemberDoesNotExist")
    | some assignee =>
      let change : KanbanChange :=
        { id := db.nextChangeId, change_type := "delete", task_id := task.id,
          task_data := [("title", task.title), ("assignee", assignee.email)],
          approved := false, approved_at := none }
      .ok ({ db with changes := db.changes ++ [change],
                     nextChangeId := db.nextChangeId + 1 },
           "Task deletion queued for approval")

/-- `DELETE /api/kanban/tasks/{task_id}` as the client sees it (body plus the
catch-all 500 handler). -/
def deleteTaskEndpoint (db : KanbanDB) (task_id : Nat) :
    Except HTTPError (KanbanDB × String) :=
  wrap500 (deleteTaskEndpointBody db task_id)

/-! ## C7: `KanbanTools.approve_changes` (kanban_tools.py 455-475) -/

/-- `change.approved = True; change.approved_at = datetime.now();
change.save()`. -/
def flipApproved (now : Int) (c : KanbanChange) : KanbanChange :=
  { c with approved := true, approved_at := some now }

/-- The `for change_id in change_ids` loop of `approve_changes`: each id is
looked up with `get_or_none`; an existing, not-yet-approved row is flipped and
saved (updating the row with that primary key) and the counter is bumped;
other ids are skipped. -/
def approveLoop (now : Int) : List Nat → List KanbanChange → Nat →
    List KanbanChange × Nat
  | [], cs, n => (cs, n)
  | cid :: rest, cs, n =>
    match cs.find? (fun c => c.id == cid) with
    | some c =>
      if c.approved then approveLoop now rest cs n
      else approveLoop now rest
             (cs.map (fun d => if d.id == cid then flipApproved now d else d)) (n + 1)
    | none => approveLoop now rest cs n

/-- Embedding of `approve_changes`: runs the loop over the requested ids and
reports the number of newly approved records. -/
def approve_changes (db : KanbanDB) (change_ids : List Nat) (now : Int) :
    KanbanDB × String :=
  let r := approveLoop now change_ids db.changes 0
  ({ db with changes := r.1 }, "Approved " ++ toString r.2 ++ " kanban changes")

/-- Spec-side description of what approval does to a single row: rows whose id
is in the batch and that are not yet approved are flipped and stamped; all
other rows are untouched. -/
def specApproveRow (ids : List Nat) (now : Int) (c : KanbanChange) : KanbanChange :=
  if ids.contains c.id && !c.approved then flipApproved now c else c

/-- Spec-side count of newly approved records: the rows of the table that are
unapproved and whose id is in the requested batch. -/
def specApprovedCount (ids : List Nat) (cs : List KanbanChange) : Nat :=
  cs.countP (fun c => ids.contains c.id && !c.approved)

/-! ## C4: `cleanup_old_data` (models/database.py 440-459) -/

structure AgentActivity where
  id : Nat
  activity_type : String
  message : String
  status : String
  created_at : Int
deriving DecidableEq, Repr

structure EmailThread where
  id : Nat
  thread_id : String
  team_member_id : Nat
  subject : String
  response_received : Bool
  created_at : Int
deriving DecidableEq, Repr

structure CleanupDB where
  activities : List AgentActivity
  threads : List EmailThread
deriving DecidableEq, Repr

def secondsPerDay : Int := 86400

/-- Embedding of `cleanup_old_data(days_to_keep)`: compute the cutoff
`datetime.now() - timedelta(days=days_to_keep)` and delete the `AgentActivity`
rows created strictly before it, and the `EmailThread` rows created strictly
before it that have `response_received == True`.  At the call site the
default `days_to_keep = 90` is used. -/
def cleanup_old_data (db : CleanupDB) (now : Int) (days_to_keep : Nat) : CleanupDB :=
  let cutoff : Int := now - days_to_keep * secondsPerDay
  { activities := db.activities.filter (fun a => !(decide (a.created_at < cutoff))),
    threads := db.threads.filter (fun t => !(decide (t.created_at < cutoff) && t.response_received)) }

/-! ## C5: `PublishKanbanTool._run` (tools/git_tools.py 354-455)

The filesystem and git side effects carry no data the claims depend on; the
boolean `hasChanges` stands for the outcome of `git diff --cached --quiet`.
Settings `github_repo` and `github_token` default to `None` (core/config.py). -/

structure GitSettings where
  github_repo : Option String
  github_token : Option String
deriving DecidableEq, Repr

/-- Python truthiness of an optional string setting (`None` and `""` are
falsy). -/
def truthy : Option String → Bool
  | none => false
  | some s => !(s == "")

/-- Split a character list at a separator, like Python `str.split(sep)` for a
single-character separator (`"".split -> [""]`). -/
def splitOnChar (sep : Char) : List Char → List (List Char)
  | [] => [[]]
  | c :: rest =>
    let r := splitOnChar sep rest
    if c == sep then [] :: r
    else
      match r with
      | h :: t => (c :: h) :: t
      | [] => [[c]]

/-- Python `repo.split("/")` followed by indexing `[0]` and `[1]`, with Python
error semantics: `AttributeError` when the setting is `None`, `IndexError`
when the string has no slash. -/
def repoParts : Option String → Except String (String × String)
  | none => .error "\x27NoneType\x27 object has no attribute \x27split\x27"
  | some r =>
    match splitOnChar '/' r.data with
    | a :: b :: _ => .ok (⟨a⟩, ⟨b⟩)
    | _ => .error "list index out of range"

/-- Embedding of `PublishKanbanTool._run`: the board is rendered, the README
f-string interpolates `settings.github_repo.split("/")[0]` and `[1]` (before
the changes check), then the result message is chosen; any exception is caught
by the final handler, which returns an error string.  The success message here
keeps the identifying first line of the corresponding Python f-string. -/
def publishKanbanRun (s : GitSettings) (hasChanges : Bool) : String :=
  match repoParts s.github_repo with
  | .error e => "Error publishing Kanban board to GitHub Pages: " ++ e
  | .ok parts =>
    if hasChanges then
      if truthy s.github_repo && truthy s.github_token then
        "Successfully published Kanban board to GitHub Pages! View your board at: https://"
          ++ parts.1 ++ ".github.io/" ++ parts.2 ++ "/"
      else
        "Kanban board HTML generated successfully, but GitHub repository not configured for publishing."
    else
      "No changes detected in Kanban board. GitHub Pages is already up to date."

/-! ## C6 and C9: email parsing (tools/email_tools.py, services/llm_service.py) -/

structure ParsedEmail where
  task_title : String
  description : String
  status : String
  priority : String
deriving DecidableEq, Repr

/-- Python `s[:200] + "..." if len(s) > 200 else s`. -/
def pyTruncate200 (s : String) : String :=
  if s.length > 200 then String.mk (s.data.take 200) ++ "..." else s

/-- Status chain of `ParseEmailTool._fallback_parsing` (email_tools.py
524-556); note its keyword lists are shorter than the llm_service ones. -/
def toolFallbackStatus (lower : String) : String :=
  if anyKeyword lower ["done", "completed", "finished", "complete"] then "done"
  else if anyKeyword lower ["blocked", "stuck", "issue", "problem"] then "blocked"
  else if anyKeyword lower ["review", "feedback", "check"] then "review"
  else if anyKeyword lower ["starting", "begin", "todo", "plan"] then "todo"
  else "in_progress"

/-- Priority chain of `ParseEmailTool._fallback_parsing`. -/
def toolFallbackPriority (lower : String) : String :=
  if anyKeyword lower ["urgent", "asap", "critical", "emergency"] then "urgent"
  else if anyKeyword lower ["high", "important", "priority"] then "high"
  else if anyKeyword lower ["low", "minor", "later"] then "low"
  else "medium"

/-- `ParseEmailTool._fallback_parsing`: fixed title `"Email Update"`,
truncated description, keyword-derived status and priority. -/
def fallbackParsing (email_content : String) : ParsedEmail :=
  let lower := pyLower email_content
  { task_title := "Email Update",
    description := pyTruncate200 email_content,
    status := toolFallbackStatus lower,
    priority := toolFallbackPriority lower }

/-- The methods the `LLMService` class actually defines (llm_service.py).
`parse_email_content` is not among them, so the attribute access
`self.email_tools.llm_service.parse_email_content` raises `AttributeError`. -/
def llmServiceMethodNames : List String :=
  ["initialize", "_test_connection", "_ensure_model_available", "_pull_model",
   "generate_simple_response", "_simplify_prompt", "parse_email_content_simple",
   "_validate_parsed_email", "_fallback_email_parsing", "_extract_task_title",
   "_detect_status", "_detect_priority", "generate_simple_summary",
   "_fallback_summary", "health_check", "cleanup"]

/-- The call `llm_service.parse_email_content(email_content)` as written in
`ParseEmailTool._run`: a Python attribute lookup on `LLMService` followed by
the call.  `extraction` stands for the structured extraction the method would
perform if it existed (`none` models a falsy `parsed_data`). -/
def callLLMParse (extraction : String → Option ParsedEmail) (content : String) :
    Except String (Option ParsedEmail) :=
  if llmServiceMethodNames.contains "parse_email_content" then .ok (extraction content)
  else .error "\x27LLMService\x27 object has no attribute \x27parse_email_content\x27"

/-- `ParseEmailTool._run` (email_tools.py 505-522): with no llm service the
fallback is used; otherwise the service call is attempted, falling back when
it raises or returns a falsy result. -/
def parseEmailToolRun (llm_service_set : Bool) (extraction : String → Option ParsedEmail)
    (email_content : String) : ParsedEmail :=
  if !llm_service_set then fallbackParsing email_content
  else
    match callLLMParse extraction email_content with
    | .error _ => fallbackParsing email_content
    | .ok none => fallbackParsing email_content
    | .ok (some d) => d

/-- The `status_keywords` dict of `LLMService._detect_status` (llm_service.py
255-269), in insertion order. -/
def statusKeywords : List (String × List String) :=
  [ ("done", ["done", "completed", "finished", "complete", "delivered"])
  , ("blocked", ["blocked", "stuck", "issue", "problem", "blocker", "waiting"])
  , ("review", ["review", "feedback", "check", "testing", "qa"])
  , ("todo", ["starting", "begin", "todo", "plan", "will start"])
  , ("in_progress", ["working", "progress", "developing", "coding", "implementing"]) ]

/-- `LLMService._detect_status`: first dict entry (in insertion order) one of
whose keywords occurs in the lower-cased content; default `in_progress`. -/
def detect_status (content_lower : String) : String :=
  match statusKeywords.find? (fun p => anyKeyword content_lower p.2) with
  | some p => p.1
  | none => "in_progress"

/-- The `priority_keywords` dict of `LLMService._detect_priority`
(llm_service.py 271-283), in insertion order. -/
def priorityKeywords : List (String × List String) :=
  [ ("urgent", ["urgent", "asap", "critical", "emergency", "immediately"])
  , ("high", ["high", "important", "priority", "soon", "quickly"])
  , ("low", ["low", "minor", "later", "when possible", "no rush"]) ]

/-- `LLMService._detect_priority`: first matching dict entry, default
`medium`. -/
def detect_priority (content_lower : String) : String :=
  match priorityKeywords.find? (fun p => anyKeyword content_lower p.2) with
  | some p => p.1
  | none => "medium"

/-! ## C8: `AgentState.to_dict` / `AgentState.from_dict`
(agents/assistant_agent.py 53-94)

The `Dict[str, Any]` payloads carried verbatim through persistence
(`active_tasks`, `pending_approvals`, `context`) are modeled by a small JSON
value type; `last_activity` is carried as its iso-format string: `isoformat`
on persist and `fromisoformat` on restore are mutually inverse on it. -/

inductive JValue where
  | null
  | bool (b : Bool)
  | num (n : Int)
  | str (s : String)
  | arr (elems : List JValue)
  | obj (fields : List (String × JValue))
deriving Repr

/-- In-memory `AgentState` (the fields `to_dict` reads). -/
structure AgentStateRec where
  current_workflow : Option String
  active_tasks : List JValue
  pending_approvals : List JValue
  last_activity : String
  context : List (String × JValue)
  messages : List Msg
  error_count : Nat
  last_error : Option String
  workflow_step : String
deriving Repr

/-- One entry of the persisted `"messages"` list: the python class name of
the message and its content. -/
structure PersistedMessage where
  type : String
  content : String
deriving DecidableEq, Repr

/-- The dictionary produced by `AgentState.to_dict`. -/
structure PersistedState where
  current_workflow : Option String
  active_tasks : List JValue
  pending_approvals : List JValue
  last_activity : String
  context : List (String × JValue)
  error_count : Nat
  last_error : Option String
  workflow_step : String
  messages : List PersistedMessage
deriving Repr

/-- `type(msg).__name__` for the two langchain message classes used. -/
def msgTypeName : MsgType → String
  | .human => "HumanMessage"
  | .ai => "AIMessage"

/-- Python slice `l[-n:]`: the last `n` elements (all of them when the list is
shorter). -/
def lastN {α : Type} (n : Nat) (l : List α) : List α :=
  l.drop (l.length - n)

/-- `AgentState.to_dict`: every field is stored; only the last 10 messages are
kept (`self.messages[-10:]`), each as its class name and content. -/
def to_dict (s : AgentStateRec) : PersistedState :=
  { current_workflow := s.current_workflow
  , active_tasks := s.active_tasks
  , pending_approvals := s.pending_approvals
  , last_activity := s.last_activity
  , context := s.context
  , error_count := s.error_count
  , last_error := s.last_error
  , workflow_step := s.workflow_step
  , messages := (lastN 10 s.messages).map (fun m => ⟨msgTypeName m.type, m.content⟩) }

/-- The message-reconstruction branch of `from_dict`: `"HumanMessage"` and
`"AIMessage"` entries are rebuilt, anything else is skipped. -/
def restoreMessage (p : PersistedMessage) : Option Msg :=
  if p.type == "HumanMessage" then some ⟨.human, p.content⟩
  else if p.type == "AIMessage" then some ⟨.ai, p.content⟩
  else none

/-- `AgentState.from_dict` applied to a dictionary of the persisted shape
(`data.get` defaults never fire on `to_dict` output, where every key is
present). -/
def from_dict (d : PersistedState) : AgentStateRec :=
  { current_workflow := d.current_workflow
  , active_tasks := d.active_tasks
  , pending_approvals := d.pending_approvals
  , last_activity := d.last_activity
  , context := d.context
  , messages := d.messages.filterMap restoreMessage
  , error_count := d.error_count
  , last_error := d.last_error
  , workflow_step := d.workflow_step }

/-! ## Sample inputs used by the witness and counterexample theorems -/

/-- A team member whose email matches but whose record is inactive. -/
def inactiveMember : TeamMember :=
  { id := 1, email := "x@example.com", name := "Alex", role := "developer", active := false }

def dbWithInactiveMember : KanbanDB :=
  { members := [inactiveMember], tasks := [], changes := [], nextTaskId := 1, nextChangeId := 1 }

def emptyKanbanDB : KanbanDB :=
  { members := [], tasks := [], changes := [], nextTaskId := 1, nextChangeId := 1 }

def activeMember : TeamMember :=
  { id := 1, email := "a@example.com", name := "Ada", role := "developer", active := true }

def sampleTask : Task :=
  { id := 7, title := "Ship feature", description := "", status := "todo",
    assignee_id := 1, due_date := none, priority := "medium", order := 0, tags := [] }

def dbOneMember : KanbanDB :=
  { members := [activeMember], tasks := [], changes := [], nextTaskId := 1, nextChangeId := 1 }

def dbOneTask : KanbanDB :=
  { members := [activeMember], tasks := [sampleTask], changes := [], nextTaskId := 8, nextChangeId := 1 }

/-- A request whose `assignee_id` names no team member. -/
def badAssigneeReq : TaskCreate :=
  { title := "T", description := "", status := "todo", assignee_id := 999,
    due_date := none, priority := "medium", order := none, tags := [] }

def sampleChanges : List KanbanChange :=
  [ { id := 1, change_type := "update", task_id := 7, task_data := [], approved := true, approved_at := some 50 }
  , { id := 2, change_type := "create", task_id := 7, task_data := [], approved := false, approved_at := none }
  , { id := 3, change_type := "delete", task_id := 7, task_data := [], approved := false, approved_at := none } ]

def dbWithChanges : KanbanDB :=
  { members := [activeMember], tasks := [sampleTask], changes := sampleChanges,
    nextTaskId := 8, nextChangeId := 4 }

def sampleCleanupDB : CleanupDB :=
  { activities :=
      [ { id := 1, activity_type := "email_sent", message := "m", status := "success", created_at := 0 }
      , { id := 2, activity_type := "email_sent", message := "m", status := "success", created_at := 10000000 } ]
  , threads :=
      [ { id := 1, thread_id := "t1", team_member_id := 1, subject := "s", response_received := true, created_at := 0 }
      , { id := 2, thread_id := "t2", team_member_id := 1, subject := "s", response_received := false, created_at := 0 }
      , { id := 3, thread_id := "t3", team_member_id := 1, subject := "s", response_received := true, created_at := 10000000 } ] }

/-- An agent state with a populated context, a non-empty task list and twelve
messages. -/
def sampleAgentState : AgentStateRec :=
  { current_workflow := some "email_automation"
  , active_tasks := [JValue.str "task-1"]
  , pending_approvals := []
  , last_activity := "2026-01-01T00:00:00"
  , context := [("action", JValue.str "send_emails")]
  , messages :=
      (List.range 12).map (fun i =>
        if i % 2 == 0 then ⟨MsgType.human, "q" ++ toString i⟩
        else ⟨MsgType.ai, "a" ++ toString i⟩)
  , error_count := 0
  , last_error := none
  , workflow_step := "idle" }

/-! ## Helper lemmas -/

theorem classify_eq_first_match (m : String) : classifyMessage m = specClassify m := by
  unfold classifyMessage specClassify specKeywordFamilies
  rcases h1 : anyKeyword m ["email", "send", "update", "request"] <;>
  rcases h2 : anyKeyword m ["response", "reply", "check", "monitor"] <;>
  rcases h3 : anyKeyword m ["task", "create", "add"] <;>
  rcases h4 : anyKeyword m ["status", "summary", "report"] <;>
  rcases h5 : anyKeyword m ["kanban", "board"] <;>
  rcases h6 : anyKeyword m ["github", "publish", "sync", "pages"] <;>
  simp [List.find?, h1, h2, h3, h4, h5, h6]

theorem countP_congr_on {α : Type} (p q : α → Bool) :
    ∀ l : List α, (∀ a ∈ l, p a = q a) → l.countP p = l.countP q := by
  intro l
  induction l with
  | nil => intro _; rfl
  | cons h t ih =>
    intro hpq
    rw [List.countP_cons, List.countP_cons, hpq h (List.mem_cons_self h t),
      ih (fun a ha => hpq a (List.mem_cons_of_mem _ ha))]

theorem countP_eq_succ_of_mem {α : Type} (p q : α → Bool) :
    ∀ (l : List α) (c : α), l.Nodup → c ∈ l → p c = true → q c = false →
    (∀ d ∈ l, d ≠ c → p d = q d) → l.countP p = 1 + l.countP q := by
  intro l
  induction l with
  | nil => intro c _ hc; cases hc
  | cons h t ih =>
    intro c hnd hc hp hq hpq
    rcases List.mem_cons.mp hc with hhc | hct
    · subst hhc
      rw [List.countP_cons, List.countP_cons, hp, hq]
      have hco : t.countP p = t.countP q := by
        refine countP_congr_on p q t (fun d hd => hpq d (List.mem_cons_of_mem _ hd) ?_)
        intro hdc
        exact (List.nodup_cons.mp hnd).1 (hdc ▸ hd)
      simp [hco, Nat.add_comm]
    · have hhne : h ≠ c := by
        intro hhc
        exact (List.nodup_cons.mp hnd).1 (hhc ▸ hct)
      rw [List.countP_cons, List.countP_cons, hpq h (List.mem_cons_self h t) hhne,
        ih c (List.nodup_cons.mp hnd).2 hct hp hq
          (fun d hd hdc => hpq d (List.mem_cons_of_mem _ hd) hdc)]
      omega

/-- The `approve_changes` loop is a per-row update plus a count over the
original table, provided primary keys are unique. -/
theorem approveLoop_eq (now : Int) :
    ∀ (ids : List Nat) (cs : List KanbanChange) (n : Nat),
      (cs.map (fun c => c.id)).Nodup →
      approveLoop now ids cs n =
        (cs.map (specApproveRow ids now), n + specApprovedCount ids cs) := by
  intro ids
  induction ids with
  | nil =>
    intro cs n _
    have h1 : cs.map (specApproveRow [] now) = cs := by
      rw [show cs.map (specApproveRow [] now) = cs.map id from
        List.map_congr_left (fun c _ => by simp [specApproveRow])]
      exact List.map_id cs
    have h2 : specApprovedCount [] cs = 0 := by
      simp [specApprovedCount]
    rw [approveLoop, h1, h2]
    simp
  | cons cid rest ih =>
    intro cs n hnd
    rcases hf : cs.find? (fun c => c.id == cid) with _ | c
    · have hnone : ∀ c ∈ cs, c.id ≠ cid := by
        intro c hcm
        have := List.find?_eq_none.mp hf c hcm
        simpa using this
      have hmapc : cs.map (specApproveRow rest now) = cs.map (specApproveRow (cid :: rest) now) :=
        List.map_congr_left (fun c hcm => by
          simp [specApproveRow, List.contains_cons, hnone c hcm])
      have hcnt : specApprovedCount rest cs = specApprovedCount (cid :: rest) cs :=
        countP_congr_on _ _ cs (fun c hcm => by
          simp [List.contains_cons, hnone c hcm])
      rw [approveLoop, hf, ih cs n hnd, hmapc, hcnt]
    · have hcmem : c ∈ cs := List.mem_of_find?_eq_some hf
      have hcid : c.id = cid := by simpa using List.find?_some hf
      have hcs_nodup : cs.Nodup := List.Nodup.of_map _ hnd
      have huniq : ∀ d ∈ cs, d.id = cid → d = c := fun d hd hdid =>
        List.inj_on_of_nodup_map hnd hd hcmem (by rw [hdid, hcid])
      by_cases hap : c.approved
      · have hmapc : cs.map (specApproveRow rest now) =
            cs.map (specApproveRow (cid :: rest) now) :=
          List.map_congr_left (fun d hd => by
            by_cases hdid : d.id = cid
            · have hdc : d = c := huniq d hd hdid
              subst hdc
              simp [specApproveRow, hap]
            · simp [specApproveRow, List.contains_cons, hdid])
        have hcnt : specApprovedCount rest cs = specApprovedCount (cid :: rest) cs :=
          countP_congr_on _ _ cs (fun d hd => by
            by_cases hdid : d.id = cid
            · have hdc : d = c := huniq d hd hdid
              subst hdc
              simp [hap]
            · simp [List.contains_cons, hdid])
        simp only [approveLoop, hf]
        rw [if_pos hap, ih cs n hnd, hmapc, hcnt]
      · have hid' : (cs.map (fun d => if d.id == cid then flipApproved now d else d)).map
            (fun c => c.id) = cs.map (fun c => c.id) := by
          rw [List.map_map]
          exact List.map_congr_left (fun d _ => by
            by_cases hdid : d.id = cid <;> simp [hdid, flipApproved])
        have hnd' : ((cs.map (fun d => if d.id == cid then flipApproved now d else d)).map
            (fun c => c.id)).Nodup := by rw [hid']; exact hnd
        have hmapc : (cs.map (fun d => if d.id == cid then flipApproved now d else d)).map
            (specApproveRow rest now) = cs.map (specApproveRow (cid :: rest) now) := by
          rw [List.map_map]
          refine List.map_congr_left (fun d hd => ?_)
          by_cases hdid : d.id = cid
          · have hdc : d = c := huniq d hd hdid
            subst hdc
            simp [Function.comp, specApproveRow, flipApproved, hdid, hap, List.contains_cons]
          · simp [Function.comp, specApproveRow, hdid, List.contains_cons]
        have hcnt : specApprovedCount (cid :: rest) cs =
            1 + specApprovedCount rest
              (cs.map (fun d => if d.id == cid then flipApproved now d else d)) := by
          unfold specApprovedCount
          rw [List.countP_map]
          refine countP_eq_succ_of_mem _ _ cs c hcs_nodup hcmem ?_ ?_ ?_
          · simp [List.contains_cons, hcid, hap]
          · simp [hcid, flipApproved]
          · intro d hd hdc
            have hdid : d.id ≠ cid := fun hdid => hdc (huniq d hd hdid)
            simp [Function.comp, List.contains_cons, hdid]
        simp only [approveLoop, hf]
        rw [if_neg hap,
          ih (cs.map (fun d => if d.id == cid then flipApproved now d else d)) (n + 1) hnd',
          hmapc, hcnt, Nat.add_assoc]

theorem restore_persist (m : Msg) :
    restoreMessage ⟨msgTypeName m.type, m.content⟩ = some m := by
  cases m with
  | mk t c => cases t <;> rfl

theorem filterMap_restore (l : List Msg) :
    (l.map (fun m => (⟨msgTypeName m.type, m.content⟩ : PersistedMessage))).filterMap
      restoreMessage = l := by
  induction l with
  | nil => rfl
  | cons m t ih => simp [List.filterMap_cons, restore_persist, ih]

/-! ## Claim theorems -/

/-- C1 (counterexample): classifying "sync the board to github pages" yields
`board_status`, not `publish_to_github` as claimed — the kanban/board family
is checked before the github/publish/sync/pages family and the message
contains "board". -/
theorem analyze_request_counterexample :
    analyzeAction [⟨MsgType.human, "sync the board to github pages"⟩] = "board_status" ∧
    analyzeAction [⟨MsgType.human, "sync the board to github pages"⟩] ≠ "publish_to_github" := by
  constructor
  · decide
  · decide

/-- C1 (amended): for every non-empty message list the agent classifies the
lower-cased latest message by first-matching keyword family in the fixed
order email/send/update/request, response/reply/check/monitor,
task/create/add, status/summary/report, kanban/board,
github/publish/sync/pages, defaulting to `general_query`; "send weekly update
to the team" classifies to `send_emails`, "what's our status this week" to
`generate_report`, "sync the board to github pages" to `board_status`, and a
message containing no family keyword to `general_query`. -/
theorem analyze_request_first_match :
    (∀ (msgs : List Msg) (m : Msg), msgs.getLast? = some m →
        analyzeAction msgs = specClassify (pyLower m.content)) ∧
    analyzeAction [⟨MsgType.human, "send weekly update to the team"⟩] = "send_emails" ∧
    analyzeAction [⟨MsgType.human, "what\x27s our status this week"⟩] = "generate_report" ∧
    analyzeAction [⟨MsgType.human, "sync the board to github pages"⟩] = "board_status" ∧
    analyzeAction [⟨MsgType.human, "hello there"⟩] = "general_query" := by
  refine ⟨?_, by decide, by decide, by decide, by decide⟩
  intro msgs m h
  simp [analyzeAction, h, classify_eq_first_match]

theorem analyze_request_first_match_witness :
    analyzeAction [⟨MsgType.human, "please reply"⟩] = specClassify (pyLower "please reply") :=
  analyze_request_first_match.1 [⟨MsgType.human, "please reply"⟩]
    ⟨MsgType.human, "please reply"⟩ rfl

/-- C2 (counterexample): the create-task tool looks the assignee up by email
alone, without filtering on `active`; with an inactive member whose email
matches, the call succeeds and writes a Task row and a KanbanChange row. -/
theorem create_task_tool_inactive_counterexample :
    inactiveMember.active = false ∧
    (createTaskToolRun dbWithInactiveMember "Fix bug" "x@example.com" "todo" "" "medium" none).2 =
      "Created task \x27Fix bug\x27 assigned to Alex (x@example.com) with status \x27todo\x27" ∧
    (createTaskToolRun dbWithInactiveMember "Fix bug" "x@example.com" "todo" "" "medium"
        none).1.tasks.length = 1 ∧
    (createTaskToolRun dbWithInactiveMember "Fix bug" "x@example.com" "todo" "" "medium"
        none).1.changes.length = 1 := by
  refine ⟨rfl, rfl, rfl, rfl⟩

/-- C2 (amended): for every invocation of the create-task tool whose assignee
email matches no TeamMember record at all (active or inactive), the call
returns the "Team member not found" error and leaves the database unchanged —
no Task row and no KanbanChange row is written. -/
theorem create_task_tool_unknown_email (db : KanbanDB)
    (title email status description priority : String) (due : Option String)
    (h : db.members.find? (fun mem => mem.email == email) = none) :
    createTaskToolRun db title email status description priority due =
      (db, "Error: Team member not found with email: " ++ email) := by
  simp [createTaskToolRun, h]

theorem create_task_tool_unknown_email_witness :
    createTaskToolRun emptyKanbanDB "T" "x@example.com" "todo" "" "medium" none =
      (emptyKanbanDB, "Error: Team member not found with email: " ++ "x@example.com") :=
  create_task_tool_unknown_email emptyKanbanDB "T" "x@example.com" "todo" "" "medium" none rfl

/-- C3 (code bug): `POST /api/kanban/tasks` with an unknown `assignee_id`
raises the 404 inside the `try` block, but the route has no
`except HTTPException: raise` clause (unlike `update_task`), so the catch-all
handler converts it into a 500: the client receives status 500, not the
claimed 404. -/
theorem create_task_endpoint_wraps_404_as_500 :
    createTaskEndpointBody dbOneMember badAssigneeReq =
      .error (.http ⟨404, "Assignee not found"⟩) ∧
    createTaskEndpoint dbOneMember badAssigneeReq =
      .error ⟨500, pyStrOfHTTPError ⟨404, "Assignee not found"⟩⟩ ∧
    (∀ (db : KanbanDB) (req : TaskCreate),
        db.members.find? (fun mem => mem.id == req.assignee_id) = none →
        createTaskEndpoint db req = .error ⟨500, pyStrOfHTTPError ⟨404, "Assignee not found"⟩⟩) := by
  refine ⟨rfl, rfl, ?_⟩
  intro db req h
  simp [createTaskEndpoint, createTaskEndpointBody, h, wrap500]

theorem create_task_endpoint_wraps_404_as_500_witness :
    createTaskEndpoint emptyKanbanDB badAssigneeReq =
      .error ⟨500, pyStrOfHTTPError ⟨404, "Assignee not found"⟩⟩ :=
  create_task_endpoint_wraps_404_as_500.2.2 emptyKanbanDB badAssigneeReq rfl

/-- C4: housekeeping cleanup with the 90-day retention window keeps exactly
the AgentActivity rows not created before the cutoff and the EmailThread rows
that are not both created before the cutoff and already responded; unresponded
threads are retained regardless of age. -/
theorem cleanup_old_data_retention (db : CleanupDB) (now : Int) :
    (∀ a, a ∈ (cleanup_old_data db now 90).activities ↔
        a ∈ db.activities ∧ ¬(a.created_at < now - 90 * secondsPerDay)) ∧
    (∀ t, t ∈ (cleanup_old_data db now 90).threads ↔
        t ∈ db.threads ∧ ¬(t.created_at < now - 90 * secondsPerDay ∧
          t.response_received = true)) ∧
    (∀ t, t ∈ db.threads → t.response_received = false →
        t ∈ (cleanup_old_data db now 90).threads) := by
  refine ⟨?_, ?_, ?_⟩
  · intro a
    simp [cleanup_old_data, List.mem_filter]
  · intro t
    simp [cleanup_old_data, List.mem_filter]
    by_cases hr : t.response_received <;> simp [hr]
  · intro t hmem hresp
    simp [cleanup_old_data, List.mem_filter, hresp, hmem]

theorem cleanup_old_data_retention_witness :
    ({ id := 2, thread_id := "t2", team_member_id := 1, subject := "s",
       response_received := false, created_at := 0 } : EmailThread) ∈
      (cleanup_old_data sampleCleanupDB 10000000 90).threads :=
  (cleanup_old_data_retention sampleCleanupDB 10000000).2.2 _ (by decide) rfl

/-- C5 (code bug): with no GitHub repository configured (the default
`github_repo = None`), the publish run crashes rendering the README f-string
(`None.split("/")`) and returns an error result instead of the claimed
skipped-publishing success; the success-with-skip message is only reachable
when a repository is configured but the token is not. -/
theorem publish_kanban_unconfigured :
    (∀ b : Bool, publishKanbanRun ⟨none, none⟩ b =
       "Error publishing Kanban board to GitHub Pages: \x27NoneType\x27 object has no attribute \x27split\x27") ∧
    publishKanbanRun ⟨some "owner/board", none⟩ true =
      "Kanban board HTML generated successfully, but GitHub repository not configured for publishing." := by
  exact ⟨fun b => by cases b <;> rfl, rfl⟩

/-- C6 (code bug): `ParseEmailTool._run` calls
`llm_service.parse_email_content`, a method `LLMService` does not define, so
the attribute lookup raises and the tool falls back on its local keyword
parser for every input — even with the language-model service available the
result is the fallback, whose title is fixed to "Email Update". -/
theorem parse_email_tool_always_falls_back :
    (∀ (extraction : String → Option ParsedEmail) (content : String),
        parseEmailToolRun true extraction content = fallbackParsing content) ∧
    llmServiceMethodNames.contains "parse_email_content" = false ∧
    (fallbackParsing "The migration is completely done").task_title = "Email Update" := by
  exact ⟨fun extraction content => rfl, by decide, rfl⟩

/-- C7: approving a batch of change ids flips exactly the existing, not yet
approved rows to `approved = true` with an approval timestamp, silently skips
ids that do not exist or are already approved, and reports the number of
newly approved records (not the size of the batch). -/
theorem approve_changes_spec (db : KanbanDB) (change_ids : List Nat) (now : Int)
    (hnd : (db.changes.map (fun c => c.id)).Nodup) :
    approve_changes db change_ids now =
      ({ db with changes := db.changes.map (specApproveRow change_ids now) },
       "Approved " ++ toString (specApprovedCount change_ids db.changes) ++
         " kanban changes") := by
  unfold approve_changes
  rw [approveLoop_eq now change_ids db.changes 0 hnd]
  simp

theorem approve_changes_spec_witness :
    approve_changes dbWithChanges [2, 999, 1] 77 =
      ({ dbWithChanges with
           changes := dbWithChanges.changes.map (specApproveRow [2, 999, 1] 77) },
       "Approved " ++ toString (specApprovedCount [2, 999, 1] dbWithChanges.changes) ++
         " kanban changes") :=
  approve_changes_spec dbWithChanges [2, 999, 1] 77 (by decide)

/-- C8: persisting an AgentState (populated context, non-empty task list,
more than 10 messages) and reconstructing it leaves the context map and the
active-task list unchanged and restores exactly the last 10 messages in
original order with their human/AI tags. -/
theorem agent_state_roundtrip (s : AgentStateRec)
    (hctx : s.context ≠ []) (htasks : s.active_tasks ≠ [])
    (hlen : 10 < s.messages.length) :
    (from_dict (to_dict s)).context = s.context ∧
    (from_dict (to_dict s)).active_tasks = s.active_tasks ∧
    (from_dict (to_dict s)).messages = lastN 10 s.messages ∧
    (from_dict (to_dict s)).messages.length = 10 := by
  have hmsg : (from_dict (to_dict s)).messages = lastN 10 s.messages := filterMap_restore _
  refine ⟨rfl, rfl, hmsg, ?_⟩
  rw [hmsg]
  simp only [lastN, List.length_drop]
  omega

theorem agent_state_roundtrip_witness :
    (from_dict (to_dict sampleAgentState)).messages = lastN 10 sampleAgentState.messages ∧
    (from_dict (to_dict sampleAgentState)).messages.length = 10 :=
  ⟨(agent_state_roundtrip sampleAgentState (by simp [sampleAgentState])
      (by simp [sampleAgentState]) (by decide)).2.2.1,
   (agent_state_roundtrip sampleAgentState (by simp [sampleAgentState])
      (by simp [sampleAgentState]) (by decide)).2.2.2⟩

/-- C9: the email keyword fallback derives status by first keyword-family
match in the fixed order done, blocked, review, todo, in_progress (default
`in_progress`) and priority in the order urgent, high, low (default
`medium`); "this is urgent, I'm blocked on the API" yields status `blocked`
and priority `urgent`. -/
theorem detect_status_priority_first_match :
    (∀ s, detect_status s =
        if anyKeyword s ["done", "completed", "finished", "complete", "delivered"] then "done"
        else if anyKeyword s ["blocked", "stuck", "issue", "problem", "blocker", "waiting"] then
          "blocked"
        else if anyKeyword s ["review", "feedback", "check", "testing", "qa"] then "review"
        else if anyKeyword s ["starting", "begin", "todo", "plan", "will start"] then "todo"
        else if anyKeyword s ["working", "progress", "developing", "coding", "implementing"] then
          "in_progress"
        else "in_progress") ∧
    (∀ s, detect_priority s =
        if anyKeyword s ["urgent", "asap", "critical", "emergency", "immediately"] then "urgent"
        else if anyKeyword s ["high", "important", "priority", "soon", "quickly"] then "high"
        else if anyKeyword s ["low", "minor", "later", "when possible", "no rush"] then "low"
        else "medium") ∧
    detect_status (pyLower "this is urgent, I\x27m blocked on the API") = "blocked" ∧
    detect_priority (pyLower "this is urgent, I\x27m blocked on the API") = "urgent" := by
  refine ⟨?_, ?_, by decide, by decide⟩
  · intro s
    unfold detect_status statusKeywords
    rcases h1 : anyKeyword s ["done", "completed", "finished", "complete", "delivered"] <;>
    rcases h2 : anyKeyword s ["blocked", "stuck", "issue", "problem", "blocker", "waiting"] <;>
    rcases h3 : anyKeyword s ["review", "feedback", "check", "testing", "qa"] <;>
    rcases h4 : anyKeyword s ["starting", "begin", "todo", "plan", "will start"] <;>
    rcases h5 : anyKeyword s ["working", "progress", "developing", "coding", "implementing"] <;>
    simp [List.find?, h1, h2, h3, h4, h5]
  · intro s
    unfold detect_priority priorityKeywords
    rcases h1 : anyKeyword s ["urgent", "asap", "critical", "emergency", "immediately"] <;>
    rcases h2 : anyKeyword s ["high", "important", "priority", "soon", "quickly"] <;>
    rcases h3 : anyKeyword s ["low", "minor", "later", "when possible", "no rush"] <;>
    simp [List.find?, h1, h2, h3]

/-- C10: deleting an existing task records exactly one pending delete-type
KanbanChange row (`approved = false`) while leaving the task table unchanged,
and approving changes never removes task rows — approval only flips the
`approved` flag on change records. -/
theorem delete_task_soft_delete (db : KanbanDB) (task_id : Nat) (t : Task) (mem : TeamMember)
    (ht : db.tasks.find? (fun x => x.id == task_id) = some t)
    (hm : db.members.find? (fun m2 => m2.id == t.assignee_id) = some mem) :
    deleteTaskEndpoint db task_id =
      .ok ({ db with
               changes := db.changes ++
                 [{ id := db.nextChangeId, change_type := "delete", task_id := t.id,
                    task_data := [("title", t.title), ("assignee", mem.email)],
                    approved := false, approved_at := none }],
               nextChangeId := db.nextChangeId + 1 },
           "Task deletion queued for approval") ∧
    (∀ (db2 : KanbanDB) (ids : List Nat) (now : Int),
        (approve_changes db2 ids now).1.tasks = db2.tasks) := by
  constructor
  · simp [deleteTaskEndpoint, deleteTaskEndpointBody, ht, hm, wrap500]
  · intro db2 ids now
    rfl

theorem delete_task_soft_delete_witness :
    deleteTaskEndpoint dbOneTask 7 =
      .ok ({ dbOneTask with
               changes := dbOneTask.changes ++
                 [{ id := dbOneTask.nextChangeId, change_type := "delete",
                    task_id := sampleTask.id,
                    task_data := [("title", sampleTask.title), ("assignee", activeMember.email)],
                    approved := false, approved_at := none }],
               nextChangeId := dbOneTask.nextChangeId + 1 },
           "Task deletion queued for approval") :=
  (delete_task_soft_delete dbOneTask 7 sampleTask activeMember rfl rfl).1

end AssistantManager
